import Mathlib

/-!
Shallow embedding of the GPU sparse-matrix header `Source/Math/GPUSparseMatrix.h`
(class `GPUSparseMatrix<ElemType>` in namespace Microsoft::MSR::CNTK).

Modelling conventions:
- `size_t` values become `Nat`; `GPUSPARSE_INDEX_TYPE` (a 32-bit signed int)
  becomes `Int`, with the explicit `(int)` cast of a `size_t` modelled by
  `intOfNat32` (two's-complement wrap).
- `sizeof(ElemType)` is the field `elemSize` (the class is a template);
  `sizeof(GPUSPARSE_INDEX_TYPE)` is the constant `sizeofGPUSPARSE_INDEX_TYPE = 4`.
- Pointers into the single device buffer are byte addresses (`Nat`).
- Device-side memory reads go through `SecondaryIndexValueAt`; its body lives
  in the .cu implementation file, so the device contents of the secondary
  index array are carried in the state as the function `secondaryIndexDev`.
- Fallible paths (`NOT_IMPLEMENTED`, `LogicError`, failed `assert`) are
  `Except MathFault`.
- The mutable cache field `m_cachedNzCount` makes the `const` cache methods
  state transformers: they return the updated matrix value.
-/

/-- Storage formats of `MatrixFormat` that a sparse matrix can carry. The enum
itself is declared outside this header; the five sparse members used by it are
listed in the data model (the fallback case the source comments call COO). -/
inductive MatrixFormat where
  | matrixFormatSparseCSC
  | matrixFormatSparseCSR
  | matrixFormatSparseBlockCol
  | matrixFormatSparseBlockRow
  | matrixFormatSparseCOO
deriving DecidableEq, Repr

open MatrixFormat

/-- Fault classes raised by the header's code paths: `NOT_IMPLEMENTED`,
`LogicError(...)`, and a failed `assert(...)` (debug builds). -/
inductive MathFault where
  | notImplemented
  | logicError
  | assertionFailed
deriving DecidableEq, Repr

/-- Byte size of `GPUSPARSE_INDEX_TYPE` (a 32-bit index type). -/
def sizeofGPUSPARSE_INDEX_TYPE : Nat := 4

/-- Two's-complement interpretation of a `size_t` value cast to a 32-bit
signed `int`, as in `(int)(GetNumRows() * GetBlockSize())`. -/
def intOfNat32 (n : Nat) : Int :=
  if n % 2 ^ 32 < 2 ^ 31 then ((n % 2 ^ 32 : Nat) : Int)
  else ((n % 2 ^ 32 : Nat) : Int) - 2 ^ 32

/-- State of one `GPUSparseMatrix<ElemType>` object, restricted to what the
header's inline members read and write. -/
structure GPUSparseMatrix where
  /-- `GetFormat()` -/
  format : MatrixFormat
  /-- `GetNumRows()` -/
  numRows : Nat
  /-- `GetNumCols()` -/
  numCols : Nat
  /-- `GetBlockSize()` (block formats only) -/
  blockSize : Nat
  /-- `GetSizeAllocated()`: number of reserved non-zero value slots -/
  sizeAllocated : Nat
  /-- `m_sliceViewOffset` (from the base matrix, a `size_t`) -/
  m_sliceViewOffset : Nat
  /-- `Buffer()`: byte address of the single device allocation -/
  buffer : Nat
  /-- `sizeof(ElemType)` for this template instantiation -/
  elemSize : Nat
  /-- device contents of the secondary index array, as read back by
  `SecondaryIndexValueAt(idx)` (whose body is in the .cu file) -/
  secondaryIndexDev : Nat → Int
  /-- `m_cachedNzCount` (mutable cache field) -/
  m_cachedNzCount : Int

/-- `INVALID_NZ_COUNT = -1`, the sentinel marking the cache Invalid. -/
def INVALID_NZ_COUNT : Int := -1

/-- Modelled from the spec: `SecondaryIndexValueAt(size_t idx)` is declared in
the header but implemented device-side; per the spec it reads entry `idx` of
the secondary index array back from device memory (a synchronization point).
The state carries those contents as `secondaryIndexDev`. -/
def GPUSparseMatrix.SecondaryIndexValueAt (st : GPUSparseMatrix) (idx : Nat) : Int :=
  st.secondaryIndexDev idx

/-- `FetchNzCount()`: determine the NzCount from the GPU-side arrays.
CSC: `SecondaryIndexValueAt(GetNumCols()) - SecondaryIndexValueAt(0)`;
CSR: `SecondaryIndexValueAt(GetNumRows()) - SecondaryIndexValueAt(0)`;
SparseBlockCol: `(int)(GetNumRows() * GetBlockSize())`; else `NOT_IMPLEMENTED`. -/
def GPUSparseMatrix.FetchNzCount (st : GPUSparseMatrix) : Except MathFault Int :=
  if st.format = matrixFormatSparseCSC then
    .ok (st.SecondaryIndexValueAt st.numCols - st.SecondaryIndexValueAt 0)
  else if st.format = matrixFormatSparseCSR then
    .ok (st.SecondaryIndexValueAt st.numRows - st.SecondaryIndexValueAt 0)
  else if st.format = matrixFormatSparseBlockCol then
    .ok (intOfNat32 (st.numRows * st.blockSize))
  else
    .error .notImplemented

/-- `HasCachedNzCount()`: `m_cachedNzCount != INVALID_NZ_COUNT`. -/
def GPUSparseMatrix.HasCachedNzCount (st : GPUSparseMatrix) : Bool :=
  st.m_cachedNzCount != INVALID_NZ_COUNT

/-- `NzCount()`: `if (!HasCachedNzCount()) m_cachedNzCount = FetchNzCount();
return m_cachedNzCount;` — returns the count and the post-state (the cache
field is mutable). A `NOT_IMPLEMENTED` in the fetch propagates. -/
def GPUSparseMatrix.NzCount (st : GPUSparseMatrix) :
    Except MathFault (Int × GPUSparseMatrix) :=
  if st.HasCachedNzCount then .ok (st.m_cachedNzCount, st)
  else
    match st.FetchNzCount with
    | .ok n => .ok (n, { st with m_cachedNzCount := n })
    | .error e => .error e

/-- `InvalidateCachedNzCount()`: `m_cachedNzCount = INVALID_NZ_COUNT;`. -/
def GPUSparseMatrix.InvalidateCachedNzCount (st : GPUSparseMatrix) : GPUSparseMatrix :=
  { st with m_cachedNzCount := INVALID_NZ_COUNT }

/-- The compile-time switch of `VerifyCachedNzCount`: the source's `#if 1`
selects the branch that disables the verification (the comparing branch is
kept under `#else` but not compiled). -/
def verificationEnabled : Bool := false

/-- `VerifyCachedNzCount(nzCount)` with the preprocessor switch made explicit:
when enabled it compares `FetchNzCount()` against the argument and raises
`LogicError` on mismatch; when disabled it does nothing. -/
def GPUSparseMatrix.VerifyCachedNzCountCore (enabled : Bool) (st : GPUSparseMatrix)
    (nzCount : Int) : Except MathFault Unit :=
  if enabled then
    match st.FetchNzCount with
    | .ok m => if m ≠ nzCount then .error .logicError else .ok ()
    | .error e => .error e
  else .ok ()

/-- `VerifyCachedNzCount` as compiled (`#if 1` branch: verification disabled). -/
def GPUSparseMatrix.VerifyCachedNzCount (st : GPUSparseMatrix) (nzCount : Int) :
    Except MathFault Unit :=
  st.VerifyCachedNzCountCore verificationEnabled nzCount

/-- `UpdateCachedNzCount(nzCount, shouldVerify)`: sets `m_cachedNzCount =
nzCount`, then, if `shouldVerify`, calls `VerifyCachedNzCount(m_cachedNzCount)`
on the updated state. Returns the post-state and the verification outcome. -/
def GPUSparseMatrix.UpdateCachedNzCount (st : GPUSparseMatrix) (nzCount : Int)
    (shouldVerify : Bool) : GPUSparseMatrix × Except MathFault Unit :=
  let st' := { st with m_cachedNzCount := nzCount }
  (st', if shouldVerify then st'.VerifyCachedNzCount nzCount else .ok ())

/-- `MajorIndexCount(numRows, numCols, numNZ, format)`: `numCols` for
SparseBlockCol, `numRows` for SparseBlockRow, else `numNZ`. -/
def MajorIndexCount (numRows numCols numNZ : Nat) (format : MatrixFormat) : Nat :=
  if format = matrixFormatSparseBlockCol then numCols
  else if format = matrixFormatSparseBlockRow then numRows
  else numNZ

/-- `SecondaryIndexCount(numRows, numCols, numNZReserved, format)`:
`numCols` / `numRows` for the block formats, `numCols + 1` for CSC,
`numRows + 1` for CSR, else `numNZReserved` (the COO fallback). -/
def SecondaryIndexCount (numRows numCols numNZReserved : Nat)
    (format : MatrixFormat) : Nat :=
  if format = matrixFormatSparseBlockCol then numCols
  else if format = matrixFormatSparseBlockRow then numRows
  else if format = matrixFormatSparseCSC then numCols + 1
  else if format = matrixFormatSparseCSR then numRows + 1
  else numNZReserved

/-- `BufferSizeNeeded(numRows, numCols, numNZ, format)` in bytes:
`sizeof(ElemType) * numNZ + sizeof(GPUSPARSE_INDEX_TYPE) *
(MajorIndexCount(...) + SecondaryIndexCount(...))`. -/
def BufferSizeNeeded (elemSize numRows numCols numNZ : Nat)
    (format : MatrixFormat) : Nat :=
  elemSize * numNZ +
    sizeofGPUSPARSE_INDEX_TYPE *
      (MajorIndexCount numRows numCols numNZ format +
        SecondaryIndexCount numRows numCols numNZ format)

/-- `ComputeMaxNZElemFromBufferSize(numRows, numCols, bufferSize, format)`:
per-format inverse of the size computation; `NOT_IMPLEMENTED` outside the four
supported formats. -/
def ComputeMaxNZElemFromBufferSize (elemSize numRows numCols bufferSize : Nat)
    (format : MatrixFormat) : Except MathFault Nat :=
  if format = matrixFormatSparseBlockCol then
    .ok ((bufferSize - 2 * sizeofGPUSPARSE_INDEX_TYPE * numCols) / elemSize)
  else if format = matrixFormatSparseBlockRow then
    .ok ((bufferSize - 2 * sizeofGPUSPARSE_INDEX_TYPE * numRows) / elemSize)
  else if format = matrixFormatSparseCSC then
    .ok ((bufferSize - sizeofGPUSPARSE_INDEX_TYPE * (numCols + 1)) /
      (sizeofGPUSPARSE_INDEX_TYPE + elemSize))
  else if format = matrixFormatSparseCSR then
    .ok ((bufferSize - sizeofGPUSPARSE_INDEX_TYPE * (numRows + 1)) /
      (sizeofGPUSPARSE_INDEX_TYPE + elemSize))
  else
    .error .notImplemented

/-- `MajorIndexLocation()`: `(GPUSPARSE_INDEX_TYPE*)(Buffer() +
GetSizeAllocated())` — pointer arithmetic on `ElemType*`, so the byte address
is `buffer + elemSize * sizeAllocated`. (Source BUGBUG note: does not honor
the slice-view offset.) -/
def GPUSparseMatrix.MajorIndexLocation (st : GPUSparseMatrix) : Nat :=
  st.buffer + st.elemSize * st.sizeAllocated

/-- `SecondaryIndexLocation()`: `MajorIndexLocation() + GetNumCols()` /
`+ GetNumRows()` for the block formats (index-typed pointer arithmetic); for
CSR/CSC, `m_sliceViewOffset + (GPUSPARSE_INDEX_TYPE*)((char*)Buffer() +
(sizeof(ElemType) + sizeof(GPUSPARSE_INDEX_TYPE)) * GetSizeAllocated())`. -/
def GPUSparseMatrix.SecondaryIndexLocation (st : GPUSparseMatrix) : Nat :=
  if st.format = matrixFormatSparseBlockCol then
    st.MajorIndexLocation + sizeofGPUSPARSE_INDEX_TYPE * st.numCols
  else if st.format = matrixFormatSparseBlockRow then
    st.MajorIndexLocation + sizeofGPUSPARSE_INDEX_TYPE * st.numRows
  else
    st.buffer + (st.elemSize + sizeofGPUSPARSE_INDEX_TYPE) * st.sizeAllocated +
      sizeofGPUSPARSE_INDEX_TYPE * st.m_sliceViewOffset

/-- `SecondaryIndexSize()`: `SecondaryIndexCount() *
sizeof(GPUSPARSE_INDEX_TYPE)`, where the member `SecondaryIndexCount()` passes
`GetSizeAllocated()` as the reserve. -/
def GPUSparseMatrix.SecondaryIndexSize (st : GPUSparseMatrix) : Nat :=
  sizeofGPUSPARSE_INDEX_TYPE *
    SecondaryIndexCount st.numRows st.numCols st.sizeAllocated st.format

/-- `MajorIndexSize()`: `sizeof(GPUSPARSE_INDEX_TYPE) * MajorIndexCount()`,
where the member `MajorIndexCount()` passes `NzCount()` (an `int` implicitly
converted to `size_t`; counts are non-negative, so this is `Int.toNat`). The
cache side effect of `NzCount()` only fills the cache and is dropped here. -/
def GPUSparseMatrix.MajorIndexSize (st : GPUSparseMatrix) : Except MathFault Nat :=
  match st.NzCount with
  | .ok p => .ok (sizeofGPUSPARSE_INDEX_TYPE *
      MajorIndexCount st.numRows st.numCols p.1.toNat st.format)
  | .error e => .error e

/-- Modelled from the spec: the `matrixFormatRowMajor` bit of the format enum
(declared outside this header). Per the layout table, CSR is the row-major
compressed format (its secondary index is the row pointer array) and
SparseBlockRow the row-major block format; CSC and SparseBlockCol are
column-major. Only the CSC/CSR values are reachable below the asserts. -/
def isRowMajorFormat : MatrixFormat → Bool
  | matrixFormatSparseCSR => true
  | matrixFormatSparseBlockRow => true
  | _ => false

/-- `RowLocation()`: asserts CSC/CSR, then returns `SecondaryIndexLocation()`
for CSR (row-major) and `MajorIndexLocation()` for CSC. -/
def GPUSparseMatrix.RowLocation (st : GPUSparseMatrix) : Except MathFault Nat :=
  if st.format = matrixFormatSparseCSC ∨ st.format = matrixFormatSparseCSR then
    .ok (if isRowMajorFormat st.format then st.SecondaryIndexLocation
         else st.MajorIndexLocation)
  else .error .assertionFailed

/-- `RowSize()`: asserts CSC/CSR, then returns `SecondaryIndexSize()` for CSR
and `MajorIndexSize()` for CSC. -/
def GPUSparseMatrix.RowSize (st : GPUSparseMatrix) : Except MathFault Nat :=
  if st.format = matrixFormatSparseCSC ∨ st.format = matrixFormatSparseCSR then
    if isRowMajorFormat st.format then .ok st.SecondaryIndexSize
    else st.MajorIndexSize
  else .error .assertionFailed

/-- `ColLocation()`: asserts CSC/CSR, then returns `MajorIndexLocation()` for
CSR and `SecondaryIndexLocation()` for CSC. -/
def GPUSparseMatrix.ColLocation (st : GPUSparseMatrix) : Except MathFault Nat :=
  if st.format = matrixFormatSparseCSC ∨ st.format = matrixFormatSparseCSR then
    .ok (if isRowMajorFormat st.format then st.MajorIndexLocation
         else st.SecondaryIndexLocation)
  else .error .assertionFailed

/-- `ColSize()`: asserts CSC/CSR, then returns `MajorIndexSize()` for CSR and
`SecondaryIndexSize()` for CSC. -/
def GPUSparseMatrix.ColSize (st : GPUSparseMatrix) : Except MathFault Nat :=
  if st.format = matrixFormatSparseCSC ∨ st.format = matrixFormatSparseCSR then
    if isRowMajorFormat st.format then st.MajorIndexSize
    else .ok st.SecondaryIndexSize
  else .error .assertionFailed

/-- `BlockId2ColOrRow()`: asserts SparseBlockCol/SparseBlockRow, then returns
`MajorIndexLocation()`. -/
def GPUSparseMatrix.BlockId2ColOrRow (st : GPUSparseMatrix) : Except MathFault Nat :=
  if st.format = matrixFormatSparseBlockCol ∨ st.format = matrixFormatSparseBlockRow then
    .ok st.MajorIndexLocation
  else .error .assertionFailed

/-- `ColOrRow2BlockId()`: asserts SparseBlockCol/SparseBlockRow, then returns
`SecondaryIndexLocation()`. -/
def GPUSparseMatrix.ColOrRow2BlockId (st : GPUSparseMatrix) : Except MathFault Nat :=
  if st.format = matrixFormatSparseBlockCol ∨ st.format = matrixFormatSparseBlockRow then
    .ok st.SecondaryIndexLocation
  else .error .assertionFailed

/-- A concrete CSC matrix used as evaluation input: 2×3, 4 value slots
reserved, 8-byte elements, secondary index `[0,1,2,3,...]` on the device, a
valid cached count of 5. -/
def exCSC : GPUSparseMatrix :=
  { format := matrixFormatSparseCSC
    numRows := 2
    numCols := 3
    blockSize := 0
    sizeAllocated := 4
    m_sliceViewOffset := 0
    buffer := 0
    elemSize := 8
    secondaryIndexDev := fun i => (i : Int)
    m_cachedNzCount := 5 }

/-- A concrete SparseBlockCol matrix: 2×3, block size 2, cache Invalid. -/
def exSBC : GPUSparseMatrix :=
  { format := matrixFormatSparseBlockCol
    numRows := 2
    numCols := 3
    blockSize := 2
    sizeAllocated := 6
    m_sliceViewOffset := 0
    buffer := 0
    elemSize := 8
    secondaryIndexDev := fun _ => 0
    m_cachedNzCount := INVALID_NZ_COUNT }

/-- A concrete CSC column-slice view: slice-view offset 1, 2 value slots. -/
def exSlice : GPUSparseMatrix :=
  { exCSC with m_sliceViewOffset := 1, sizeAllocated := 2 }

/-! Theorems for the frozen claims. -/

/-- C3: for every (rows, cols, nnz) and element size, `BufferSizeNeeded`
returns `sizeof(value) * nnz + sizeof(index) * (majorCount + secondaryCount)`
with majorCount = nnz for CSR/CSC and numCols/numRows for the block formats,
and secondaryCount = numRows+1 for CSR, numCols+1 for CSC, and
numCols/numRows for SparseBlockCol/SparseBlockRow. -/
theorem bufferSizeNeeded_formula (elemSize numRows numCols numNZ : Nat) :
    BufferSizeNeeded elemSize numRows numCols numNZ matrixFormatSparseCSR =
      elemSize * numNZ + sizeofGPUSPARSE_INDEX_TYPE * (numNZ + (numRows + 1)) ∧
    BufferSizeNeeded elemSize numRows numCols numNZ matrixFormatSparseCSC =
      elemSize * numNZ + sizeofGPUSPARSE_INDEX_TYPE * (numNZ + (numCols + 1)) ∧
    BufferSizeNeeded elemSize numRows numCols numNZ matrixFormatSparseBlockCol =
      elemSize * numNZ + sizeofGPUSPARSE_INDEX_TYPE * (numCols + numCols) ∧
    BufferSizeNeeded elemSize numRows numCols numNZ matrixFormatSparseBlockRow =
      elemSize * numNZ + sizeofGPUSPARSE_INDEX_TYPE * (numRows + numRows) := by
  refine ⟨rfl, rfl, rfl, rfl⟩

/-- C4 counterexample: at rows = 2, cols = 3, nnz = 7, elemSize = 8 and the
COO fallback format, `MajorIndexCount` and `SecondaryIndexCount` return plain
values (7 each) and `BufferSizeNeeded` returns 112 — none of the three
signals a "not implemented" fault, contradicting the claim that all
size-computation operations fault outside the four supported formats (only
`ComputeMaxNZElemFromBufferSize` does). -/
theorem sizeComputation_coo_returns_values :
    MajorIndexCount 2 3 7 matrixFormatSparseCOO = 7 ∧
    SecondaryIndexCount 2 3 7 matrixFormatSparseCOO = 7 ∧
    BufferSizeNeeded 8 2 3 7 matrixFormatSparseCOO = 112 ∧
    ComputeMaxNZElemFromBufferSize 8 2 3 500 matrixFormatSparseCOO =
      .error .notImplemented := by
  refine ⟨rfl, rfl, rfl, rfl⟩

/-- C4 (amended): for every format outside {CSR, CSC, SparseBlockCol,
SparseBlockRow} (the COO fallback), only `ComputeMaxNZElemFromBufferSize`
signals a "not implemented" fault; `MajorIndexCount` returns numNZ,
`SecondaryIndexCount` returns numNZReserved, and `BufferSizeNeeded` therefore
returns `sizeof(value)*nnz + sizeof(index)*(nnz + nnz)` without faulting. -/
theorem sizeComputation_coo_fault_only_computeMax
    (elemSize numRows numCols numNZ bufferSize : Nat) :
    ComputeMaxNZElemFromBufferSize elemSize numRows numCols bufferSize
      matrixFormatSparseCOO = .error .notImplemented ∧
    MajorIndexCount numRows numCols numNZ matrixFormatSparseCOO = numNZ ∧
    SecondaryIndexCount numRows numCols numNZ matrixFormatSparseCOO = numNZ ∧
    BufferSizeNeeded elemSize numRows numCols numNZ matrixFormatSparseCOO =
      elemSize * numNZ + sizeofGPUSPARSE_INDEX_TYPE * (numNZ + numNZ) := by
  refine ⟨rfl, rfl, rfl, rfl⟩

/-- C9: `ComputeMaxNZElemFromBufferSize` is a left inverse of
`BufferSizeNeeded` on the four supported formats: feeding the computed buffer
size back recovers exactly the reserved non-zero count (the divisions are
exact), for any positive element size. -/
theorem computeMaxNZElem_left_inverse_of_bufferSizeNeeded
    (elemSize numRows numCols numNZ : Nat) (format : MatrixFormat)
    (he : 0 < elemSize)
    (hf : format = matrixFormatSparseCSR ∨ format = matrixFormatSparseCSC ∨
          format = matrixFormatSparseBlockCol ∨ format = matrixFormatSparseBlockRow) :
    ComputeMaxNZElemFromBufferSize elemSize numRows numCols
      (BufferSizeNeeded elemSize numRows numCols numNZ format) format =
      .ok numNZ := by
  have hidx : sizeofGPUSPARSE_INDEX_TYPE = 4 := rfl
  rcases hf with hf | hf | hf | hf <;> subst hf <;>
    simp only [ComputeMaxNZElemFromBufferSize, BufferSizeNeeded, MajorIndexCount,
      SecondaryIndexCount, hidx, if_true, if_false, reduceCtorEq, ite_false, ite_true]
  · -- CSR: ((e*n + 4*(n + (rows+1))) - 4*(rows+1)) / (4 + e) = n
    have h1 : elemSize * numNZ + 4 * (numNZ + (numRows + 1)) - 4 * (numRows + 1) =
        (4 + elemSize) * numNZ := by
      have : (4 + elemSize) * numNZ = elemSize * numNZ + 4 * numNZ := by ring
      omega
    rw [h1, Nat.mul_div_cancel_left _ (by omega : 0 < 4 + elemSize)]
  · -- CSC
    have h1 : elemSize * numNZ + 4 * (numNZ + (numCols + 1)) - 4 * (numCols + 1) =
        (4 + elemSize) * numNZ := by
      have : (4 + elemSize) * numNZ = elemSize * numNZ + 4 * numNZ := by ring
      omega
    rw [h1, Nat.mul_div_cancel_left _ (by omega : 0 < 4 + elemSize)]
  · -- SparseBlockCol: ((e*n + 4*(cols + cols)) - 8*cols) / e = n
    have h1 : elemSize * numNZ + 4 * (numCols + numCols) - 2 * 4 * numCols =
        elemSize * numNZ := by omega
    rw [h1, Nat.mul_div_cancel_left _ he]
  · -- SparseBlockRow
    have h1 : elemSize * numNZ + 4 * (numRows + numRows) - 2 * 4 * numRows =
        elemSize * numNZ := by omega
    rw [h1, Nat.mul_div_cancel_left _ he]

/-- C9 witness: concrete evaluation at elemSize = 8, 2×3, nnz = 7, CSC. -/
theorem computeMaxNZElem_left_inverse_witness :
    ComputeMaxNZElemFromBufferSize 8 2 3 (BufferSizeNeeded 8 2 3 7 matrixFormatSparseCSC)
      matrixFormatSparseCSC = .ok 7 :=
  computeMaxNZElem_left_inverse_of_bufferSizeNeeded 8 2 3 7 matrixFormatSparseCSC
    (by decide) (Or.inr (Or.inl rfl))

/-- A `size_t` product below `2^31` survives the `(int)` cast unchanged. -/
theorem intOfNat32_eq_ofNat (n : Nat) (h : n < 2 ^ 31) : intOfNat32 n = (n : Int) := by
  have h32 : n % 2 ^ 32 = n := Nat.mod_eq_of_lt (by omega)
  unfold intOfNat32
  rw [h32, if_pos h]

/-- C2: the fetched non-zero count is `secondaryIndex[numCols] -
secondaryIndex[0]` for CSC, `secondaryIndex[numRows] - secondaryIndex[0]` for
CSR, and `numRows * blockSize` for SparseBlockCol (when that product is
representable in the 32-bit index type); for SparseBlockRow and the COO
fallback the fetch fails with the "not implemented" fault. -/
theorem fetchNzCount_per_format (st : GPUSparseMatrix) :
    (st.format = matrixFormatSparseCSC →
      st.FetchNzCount =
        .ok (st.SecondaryIndexValueAt st.numCols - st.SecondaryIndexValueAt 0)) ∧
    (st.format = matrixFormatSparseCSR →
      st.FetchNzCount =
        .ok (st.SecondaryIndexValueAt st.numRows - st.SecondaryIndexValueAt 0)) ∧
    (st.format = matrixFormatSparseBlockCol → st.numRows * st.blockSize < 2 ^ 31 →
      st.FetchNzCount = .ok ((st.numRows * st.blockSize : Nat) : Int)) ∧
    ((st.format = matrixFormatSparseBlockRow ∨ st.format = matrixFormatSparseCOO) →
      st.FetchNzCount = .error .notImplemented) := by
  refine ⟨?_, ?_, ?_, ?_⟩
  · intro hf; simp [GPUSparseMatrix.FetchNzCount, hf]
  · intro hf; simp [GPUSparseMatrix.FetchNzCount, hf]
  · intro hf hlt
    simp [GPUSparseMatrix.FetchNzCount, hf, intOfNat32_eq_ofNat _ hlt]
  · rintro (hf | hf) <;> simp [GPUSparseMatrix.FetchNzCount, hf]

/-- C2 witness: on the concrete CSC matrix the fetch evaluates to
`secondaryIndex[3] - secondaryIndex[0] = 3`. -/
theorem fetchNzCount_per_format_witness : exCSC.FetchNzCount = .ok 3 := by
  rw [(fetchNzCount_per_format exCSC).1 rfl]; rfl

/-- C1: the two-state discipline of the nz-count cache. If the cache is
Invalid and the device fetch yields a (non-negative) count, `NzCount()`
returns that count and stores it as Valid; if the cache is Valid, `NzCount()`
returns the cached value with no device access (the result does not depend on
the device-side contents); `InvalidateCachedNzCount()` makes the cache
Invalid, and a `NzCount()` immediately after it returns the freshly fetched
value, never the stale cache. -/
theorem nzCount_cache_discipline (st : GPUSparseMatrix) :
    (∀ n : Int, st.HasCachedNzCount = false → st.FetchNzCount = .ok n → 0 ≤ n →
      st.NzCount = .ok (n, { st with m_cachedNzCount := n }) ∧
      ({ st with m_cachedNzCount := n } : GPUSparseMatrix).HasCachedNzCount = true) ∧
    (st.HasCachedNzCount = true →
      st.NzCount = .ok (st.m_cachedNzCount, st) ∧
      ∀ dev : Nat → Int,
        ({ st with secondaryIndexDev := dev } : GPUSparseMatrix).NzCount =
          .ok (st.m_cachedNzCount, { st with secondaryIndexDev := dev })) ∧
    (st.InvalidateCachedNzCount.HasCachedNzCount = false ∧
      ∀ n : Int, st.FetchNzCount = .ok n →
        st.InvalidateCachedNzCount.NzCount = .ok (n, { st with m_cachedNzCount := n })) := by
  refine ⟨?_, ?_, ?_, ?_⟩
  · intro n hc hf hn
    constructor
    · simp [GPUSparseMatrix.NzCount, hc, hf]
    · simp only [GPUSparseMatrix.HasCachedNzCount, INVALID_NZ_COUNT, bne_iff_ne,
        ne_eq, decide_eq_true_eq]
      omega
  · intro hc
    constructor
    · simp [GPUSparseMatrix.NzCount, hc]
    · intro dev
      have hc2 : ({ st with secondaryIndexDev := dev } : GPUSparseMatrix).HasCachedNzCount
          = true := hc
      simp [GPUSparseMatrix.NzCount, hc2]
  · simp [GPUSparseMatrix.InvalidateCachedNzCount, GPUSparseMatrix.HasCachedNzCount]
  · intro n hf
    have hc : st.InvalidateCachedNzCount.HasCachedNzCount = false := by
      simp [GPUSparseMatrix.InvalidateCachedNzCount, GPUSparseMatrix.HasCachedNzCount]
    have hf' : st.InvalidateCachedNzCount.FetchNzCount = .ok n := hf
    simp only [GPUSparseMatrix.NzCount, hc, Bool.false_eq_true, if_false, hf']
    simp [GPUSparseMatrix.InvalidateCachedNzCount]

/-- C1 witness: on the concrete CSC matrix, invalidating then querying
re-fetches and yields the device-derived count 3, not the stale cached 5. -/
theorem nzCount_cache_discipline_witness :
    exCSC.InvalidateCachedNzCount.HasCachedNzCount = false ∧
    exCSC.InvalidateCachedNzCount.NzCount = .ok (3, { exCSC with m_cachedNzCount := 3 }) := by
  have h := (nzCount_cache_discipline exCSC).2.2
  exact ⟨h.1, h.2 3 rfl⟩

/-- C10: the Invalid cache state is the sentinel `-1`, so
`UpdateCachedNzCount(-1, _)` leaves the cache Invalid: `HasCachedNzCount()`
is false afterwards, the next `NzCount()` re-fetches from the device, and a
cached value observed through `HasCachedNzCount()` is never `-1`. -/
theorem cachedNzCount_sentinel_invalid (st : GPUSparseMatrix) (v : Bool) :
    (st.UpdateCachedNzCount (-1) v).1.HasCachedNzCount = false ∧
    (∀ n : Int, st.FetchNzCount = .ok n →
      (st.UpdateCachedNzCount (-1) v).1.NzCount =
        .ok (n, { st with m_cachedNzCount := n })) ∧
    (∀ st2 : GPUSparseMatrix, st2.HasCachedNzCount = true →
      st2.m_cachedNzCount ≠ -1) := by
  refine ⟨?_, ?_, ?_⟩
  · simp [GPUSparseMatrix.UpdateCachedNzCount, GPUSparseMatrix.HasCachedNzCount,
      INVALID_NZ_COUNT]
  · intro n hf
    have hc : (st.UpdateCachedNzCount (-1) v).1.HasCachedNzCount = false := by
      simp [GPUSparseMatrix.UpdateCachedNzCount, GPUSparseMatrix.HasCachedNzCount,
        INVALID_NZ_COUNT]
    have hf' : (st.UpdateCachedNzCount (-1) v).1.FetchNzCount = .ok n := hf
    simp only [GPUSparseMatrix.NzCount, hc, Bool.false_eq_true, if_false, hf']
    simp [GPUSparseMatrix.UpdateCachedNzCount]
  · intro st2 h
    simpa [GPUSparseMatrix.HasCachedNzCount, INVALID_NZ_COUNT] using h

/-- C10 witness: updating the concrete CSC matrix's cache with `-1` leaves it
Invalid and the following `NzCount()` freshly fetches 3. -/
theorem cachedNzCount_sentinel_invalid_witness :
    (exCSC.UpdateCachedNzCount (-1) true).1.HasCachedNzCount = false ∧
    (exCSC.UpdateCachedNzCount (-1) true).1.NzCount =
      .ok (3, { exCSC with m_cachedNzCount := 3 }) := by
  have h := cachedNzCount_sentinel_invalid exCSC true
  exact ⟨h.1, h.2.1 3 rfl⟩

/-- C5 counterexample: `UpdateCachedNzCount` does not always leave the cache
in `Valid(n)` — at `n = -1` (the Invalid sentinel) the cache is Invalid
afterwards, as witnessed on the concrete SparseBlockCol matrix. -/
theorem updateCachedNzCount_not_always_valid :
    (exSBC.UpdateCachedNzCount (-1) true).1.HasCachedNzCount = false := by
  rfl

/-- C5 (amended): for every `n` other than the Invalid sentinel `-1`,
`UpdateCachedNzCount(n, verify)` sets the cache to `Valid(n)`; as compiled it
performs no device fetch and cannot fault (the verification's compile-time
switch is off — disabled, not removed); the retained verification logic, when
its switch is enabled, re-fetches the device-side count and signals a logic
error if it differs from the cached value. -/
theorem updateCachedNzCount_sets_valid (st : GPUSparseMatrix) (n : Int) (v : Bool)
    (hn : n ≠ -1) :
    (st.UpdateCachedNzCount n v).1.m_cachedNzCount = n ∧
    (st.UpdateCachedNzCount n v).1.HasCachedNzCount = true ∧
    (st.UpdateCachedNzCount n v).2 = .ok () ∧
    verificationEnabled = false ∧
    (∀ m : Int, st.FetchNzCount = .ok m → m ≠ n →
      GPUSparseMatrix.VerifyCachedNzCountCore true { st with m_cachedNzCount := n } n =
        .error .logicError) := by
  refine ⟨rfl, ?_, ?_, rfl, ?_⟩
  · simp [GPUSparseMatrix.UpdateCachedNzCount, GPUSparseMatrix.HasCachedNzCount,
      INVALID_NZ_COUNT, hn]
  · simp [GPUSparseMatrix.UpdateCachedNzCount, GPUSparseMatrix.VerifyCachedNzCount,
      GPUSparseMatrix.VerifyCachedNzCountCore, verificationEnabled]
  · intro m hf hm
    have hf' : ({ st with m_cachedNzCount := n } : GPUSparseMatrix).FetchNzCount
        = .ok m := hf
    simp [GPUSparseMatrix.VerifyCachedNzCountCore, hf', hm]

/-- C5 witness: updating the concrete CSC matrix's cache with 7 yields a
Valid cache holding 7 and an ok (no-fault) verification outcome. -/
theorem updateCachedNzCount_sets_valid_witness :
    (exCSC.UpdateCachedNzCount 7 true).1.m_cachedNzCount = 7 ∧
    (exCSC.UpdateCachedNzCount 7 true).1.HasCachedNzCount = true ∧
    (exCSC.UpdateCachedNzCount 7 true).2 = .ok () := by
  have h := updateCachedNzCount_sets_valid exCSC 7 true (by decide)
  exact ⟨h.1, h.2.1, h.2.2.1⟩

/-- C6 counterexample: on the concrete CSC column-slice view (slice-view
offset 1), `SecondaryIndexLocation()` is not the position immediately after
the `sizeAllocated` major-index slots: it is 28 while
`MajorIndexLocation() + sizeof(index) * sizeAllocated` is 24. -/
theorem secondaryIndexLocation_slice_not_contiguous :
    exSlice.SecondaryIndexLocation ≠
      exSlice.MajorIndexLocation + sizeofGPUSPARSE_INDEX_TYPE * exSlice.sizeAllocated := by
  decide

/-- C6 (amended): the three sub-arrays are packed values, then major index,
then secondary index with no padding: `MajorIndexLocation()` is `Buffer()`
plus `sizeAllocated` value slots for every matrix; for the block formats
`SecondaryIndexLocation()` is `MajorIndexLocation() + numCols`/`+ numRows`
index slots; and for CSC/CSR it is the position immediately after
`sizeAllocated` major-index slots provided the matrix is not a slice view
(`m_sliceViewOffset = 0`) — a slice view shifts it by the offset. -/
theorem buffer_packing_order (st : GPUSparseMatrix) :
    st.MajorIndexLocation = st.buffer + st.elemSize * st.sizeAllocated ∧
    ((st.format = matrixFormatSparseCSC ∨ st.format = matrixFormatSparseCSR) →
      st.m_sliceViewOffset = 0 →
      st.SecondaryIndexLocation =
        st.MajorIndexLocation + sizeofGPUSPARSE_INDEX_TYPE * st.sizeAllocated) ∧
    (st.format = matrixFormatSparseBlockCol →
      st.SecondaryIndexLocation =
        st.MajorIndexLocation + sizeofGPUSPARSE_INDEX_TYPE * st.numCols) ∧
    (st.format = matrixFormatSparseBlockRow →
      st.SecondaryIndexLocation =
        st.MajorIndexLocation + sizeofGPUSPARSE_INDEX_TYPE * st.numRows) := by
  refine ⟨rfl, ?_, ?_, ?_⟩
  · rintro (hf | hf) h0 <;>
      simp [GPUSparseMatrix.SecondaryIndexLocation, GPUSparseMatrix.MajorIndexLocation,
        hf, h0] <;> ring
  · intro hf
    simp [GPUSparseMatrix.SecondaryIndexLocation, hf]
  · intro hf
    simp [GPUSparseMatrix.SecondaryIndexLocation, hf]

/-- C6 witness: on the concrete non-view CSC matrix the secondary index
region starts right after the major index region. -/
theorem buffer_packing_order_witness :
    exCSC.SecondaryIndexLocation =
      exCSC.MajorIndexLocation + sizeofGPUSPARSE_INDEX_TYPE * exCSC.sizeAllocated :=
  (buffer_packing_order exCSC).2.1 (Or.inl rfl) rfl

/-- C7: for CSC/CSR matrices, the slice-view offset moves only the
secondary-index interpretation: `SecondaryIndexLocation()` shifts by
`sizeof(index) * offset` relative to the offset-0 position, while
`MajorIndexLocation()` and the raw buffer base are unchanged by the offset. -/
theorem sliceViewOffset_only_secondary (st : GPUSparseMatrix) (o : Nat)
    (hf : st.format = matrixFormatSparseCSC ∨ st.format = matrixFormatSparseCSR) :
    ({ st with m_sliceViewOffset := o } : GPUSparseMatrix).SecondaryIndexLocation =
      ({ st with m_sliceViewOffset := 0 } : GPUSparseMatrix).SecondaryIndexLocation +
        sizeofGPUSPARSE_INDEX_TYPE * o ∧
    ({ st with m_sliceViewOffset := o } : GPUSparseMatrix).MajorIndexLocation =
      st.MajorIndexLocation ∧
    ({ st with m_sliceViewOffset := o } : GPUSparseMatrix).buffer = st.buffer := by
  refine ⟨?_, rfl, rfl⟩
  rcases hf with hf | hf <;>
    simp [GPUSparseMatrix.SecondaryIndexLocation, hf]

/-- C7 witness: concrete evaluation on the CSC matrix at slice offset 1. -/
theorem sliceViewOffset_only_secondary_witness :
    ({ exCSC with m_sliceViewOffset := 1 } : GPUSparseMatrix).SecondaryIndexLocation =
      ({ exCSC with m_sliceViewOffset := 0 } : GPUSparseMatrix).SecondaryIndexLocation +
        sizeofGPUSPARSE_INDEX_TYPE * 1 ∧
    ({ exCSC with m_sliceViewOffset := 1 } : GPUSparseMatrix).MajorIndexLocation =
      exCSC.MajorIndexLocation := by
  have h := sliceViewOffset_only_secondary exCSC 1 (Or.inl rfl)
  exact ⟨h.1, h.2.1⟩

/-- On CSC/CSR matrices `NzCount()` always succeeds (the fetch is
implemented for both compressed formats). -/
theorem nzCount_ok_of_csc_csr (st : GPUSparseMatrix)
    (hf : st.format = matrixFormatSparseCSC ∨ st.format = matrixFormatSparseCSR) :
    ∃ p, st.NzCount = Except.ok p := by
  by_cases hc : st.HasCachedNzCount
  · exact ⟨(st.m_cachedNzCount, st), by simp [GPUSparseMatrix.NzCount, hc]⟩
  · rcases hf with hf | hf
    · have hn : st.FetchNzCount =
          Except.ok (st.SecondaryIndexValueAt st.numCols - st.SecondaryIndexValueAt 0) := by
        simp [GPUSparseMatrix.FetchNzCount, hf]
      refine ⟨(st.SecondaryIndexValueAt st.numCols - st.SecondaryIndexValueAt 0,
        { st with m_cachedNzCount :=
            st.SecondaryIndexValueAt st.numCols - st.SecondaryIndexValueAt 0 }), ?_⟩
      unfold GPUSparseMatrix.NzCount
      rw [if_neg hc, hn]
    · have hn : st.FetchNzCount =
          Except.ok (st.SecondaryIndexValueAt st.numRows - st.SecondaryIndexValueAt 0) := by
        simp [GPUSparseMatrix.FetchNzCount, hf]
      refine ⟨(st.SecondaryIndexValueAt st.numRows - st.SecondaryIndexValueAt 0,
        { st with m_cachedNzCount :=
            st.SecondaryIndexValueAt st.numRows - st.SecondaryIndexValueAt 0 }), ?_⟩
      unfold GPUSparseMatrix.NzCount
      rw [if_neg hc, hn]

/-- On CSC/CSR matrices `MajorIndexSize()` succeeds. -/
theorem majorIndexSize_ok_of_csc_csr (st : GPUSparseMatrix)
    (hf : st.format = matrixFormatSparseCSC ∨ st.format = matrixFormatSparseCSR) :
    ∃ k, st.MajorIndexSize = Except.ok k := by
  obtain ⟨p, hp⟩ := nzCount_ok_of_csc_csr st hf
  refine ⟨sizeofGPUSPARSE_INDEX_TYPE *
    MajorIndexCount st.numRows st.numCols p.1.toNat st.format, ?_⟩
  unfold GPUSparseMatrix.MajorIndexSize
  rw [hp]

/-- C8: the CSR/CSC-only accessors `RowLocation`, `ColLocation`, `RowSize`
and `ColSize` return normally exactly under their asserted precondition
(format CSC or CSR) and fail the assertion on a block-format matrix;
symmetrically, `BlockId2ColOrRow` and `ColOrRow2BlockId` return normally on
the block formats and fail the assertion on CSC/CSR. -/
theorem format_accessor_asserts (st : GPUSparseMatrix) :
    ((st.format = matrixFormatSparseCSC ∨ st.format = matrixFormatSparseCSR) →
      (∃ a, st.RowLocation = Except.ok a) ∧ (∃ a, st.ColLocation = Except.ok a) ∧
      (∃ k, st.RowSize = Except.ok k) ∧ (∃ k, st.ColSize = Except.ok k) ∧
      st.BlockId2ColOrRow = .error .assertionFailed ∧
      st.ColOrRow2BlockId = .error .assertionFailed) ∧
    ((st.format = matrixFormatSparseBlockCol ∨ st.format = matrixFormatSparseBlockRow) →
      st.RowLocation = .error .assertionFailed ∧
      st.ColLocation = .error .assertionFailed ∧
      st.RowSize = .error .assertionFailed ∧
      st.ColSize = .error .assertionFailed ∧
      (∃ a, st.BlockId2ColOrRow = Except.ok a) ∧
      (∃ a, st.ColOrRow2BlockId = Except.ok a)) := by
  constructor
  · intro hf
    obtain ⟨k, hk⟩ := majorIndexSize_ok_of_csc_csr st hf
    refine ⟨?_, ?_, ?_, ?_, ?_, ?_⟩
    · rw [GPUSparseMatrix.RowLocation, if_pos hf]
      exact ⟨_, rfl⟩
    · rw [GPUSparseMatrix.ColLocation, if_pos hf]
      exact ⟨_, rfl⟩
    · rw [GPUSparseMatrix.RowSize, if_pos hf]
      by_cases hrm : isRowMajorFormat st.format
      · rw [if_pos hrm]; exact ⟨_, rfl⟩
      · rw [if_neg hrm]; exact ⟨k, hk⟩
    · rw [GPUSparseMatrix.ColSize, if_pos hf]
      by_cases hrm : isRowMajorFormat st.format
      · rw [if_pos hrm]; exact ⟨k, hk⟩
      · rw [if_neg hrm]; exact ⟨_, rfl⟩
    · rcases hf with hf | hf <;> simp [GPUSparseMatrix.BlockId2ColOrRow, hf]
    · rcases hf with hf | hf <;> simp [GPUSparseMatrix.ColOrRow2BlockId, hf]
  · intro hb
    refine ⟨?_, ?_, ?_, ?_, ?_, ?_⟩
    · rcases hb with hb | hb <;> simp [GPUSparseMatrix.RowLocation, hb]
    · rcases hb with hb | hb <;> simp [GPUSparseMatrix.ColLocation, hb]
    · rcases hb with hb | hb <;> simp [GPUSparseMatrix.RowSize, hb]
    · rcases hb with hb | hb <;> simp [GPUSparseMatrix.ColSize, hb]
    · rw [GPUSparseMatrix.BlockId2ColOrRow, if_pos hb]
      exact ⟨_, rfl⟩
    · rw [GPUSparseMatrix.ColOrRow2BlockId, if_pos hb]
      exact ⟨_, rfl⟩

/-- C8 witness: on the concrete CSC matrix the row accessor returns normally
and the block accessor fails its assertion; on the concrete SparseBlockCol
matrix it is the other way around. -/
theorem format_accessor_asserts_witness :
    (∃ a, exCSC.RowLocation = Except.ok a) ∧
    exCSC.BlockId2ColOrRow = .error .assertionFailed ∧
    exSBC.RowLocation = .error .assertionFailed ∧
    (∃ a, exSBC.BlockId2ColOrRow = Except.ok a) := by
  have h1 := (format_accessor_asserts exCSC).1 (Or.inl rfl)
  have h2 := (format_accessor_asserts exSBC).2 (Or.inl rfl)
  exact ⟨h1.1, h1.2.2.2.2.1, h2.1, h2.2.2.2.2.1⟩
